import Mathlib

/-!
Shallow embedding of the prediction-request client in `frontend_app.py`
(the SmartPay Streamlit frontend).  The embedded fragment is the submit
flow of the Prediction tab: endpoint configuration (lines 109-110),
payload construction (lines 249-262), the guarded POST (lines 286-296),
and response handling plus history recording (lines 330-357).

Python floats are modelled as exact rationals (`ℚ`); Python objects that
can arrive from `json` decoding are modelled by the inductive `Json`.
The remote HTTP service and the transport are external, so a submission
is parameterised by a `NetOutcome`: what `requests.post` would do if it
were called (return a response, or raise).
-/

namespace FrontendApp

/-- A decoded JSON value, i.e. a possible return value of `r.json()` in
Python (None / bool / number / string / list / dict). -/
inductive Json where
  | null : Json
  | bool (b : Bool) : Json
  | num (q : ℚ) : Json
  | str (s : String) : Json
  | arr (items : List Json) : Json
  | obj (fields : List (String × Json)) : Json

/-- First-match lookup in a field list, the access pattern of a Python
dict built by the json decoder (keys are unique there). -/
def lookupField : List (String × Json) → String → Option Json
  | [], _ => none
  | (k, v) :: rest, key => if k = key then some v else lookupField rest key

/-- `j.get(key)` for a dict `j`: `some` the stored value when the key is
present (even if that value is null), `none` when absent.  On a
non-dict, `.get` does not exist; callers that reach it on a non-dict
crash, which `handleResponse` models separately. -/
def Json.get (j : Json) (key : String) : Option Json :=
  match j with
  | .obj fields => lookupField fields key
  | _ => none

/-- Python truthiness of a decoded JSON value: None, False, 0, empty
string, empty list and empty dict are falsy, everything else truthy. -/
def pyTruthy : Json → Bool
  | .null => false
  | .bool b => b
  | .num q => decide (q ≠ 0)
  | .str s => decide (s ≠ "")
  | .arr items => !items.isEmpty
  | .obj fields => !fields.isEmpty

/-- Python `a or b` where `a` is the result of a `dict.get(key)` call
(`none` models the `None` returned for a missing key): the left value
when it is truthy, otherwise `b`. -/
def pyOr (a : Option Json) (b : Json) : Json :=
  match a with
  | some v => if pyTruthy v then v else b
  | none => b

def digitVal (c : Char) : Nat := c.toNat - 48

def digitsVal (cs : List Char) : Nat :=
  cs.foldl (fun acc c => acc * 10 + digitVal c) 0

/-- Python `float()` applied to a string, restricted to plain decimal
literals: optional sign, digits, optional fractional part.  The other
forms Python accepts (exponents, inf, nan, surrounding whitespace) play
no role in any claim and are modelled as failures. -/
def parseDecimal (s : String) : Option ℚ :=
  let cs := s.toList
  let signAndBody : ℚ × List Char :=
    match cs with
    | '-' :: rest => (-1, rest)
    | '+' :: rest => (1, rest)
    | rest => (1, rest)
  let sgn := signAndBody.1
  let body := signAndBody.2
  let intPart := body.takeWhile (fun c => c.isDigit)
  let rest := body.dropWhile (fun c => c.isDigit)
  match rest with
  | [] =>
      if intPart.isEmpty then none
      else some (sgn * (digitsVal intPart : ℚ))
  | '.' :: frac =>
      if frac.all (fun c => c.isDigit) ∧ (intPart ≠ [] ∨ frac ≠ []) then
        some (sgn * ((digitsVal intPart : ℚ) + (digitsVal frac : ℚ) / (10 : ℚ) ^ frac.length))
      else none
  | _ => none

/-- Python `float()` on a decoded JSON value: numbers pass through,
bools are ints (True = 1.0), numeric strings parse, and everything else
(None, lists, dicts, non-numeric strings) raises, modelled as `none`. -/
def pyFloat : Json → Option ℚ
  | .num q => some q
  | .bool b => some (if b then 1 else 0)
  | .str s => parseDecimal s
  | _ => none

/-- Line 109: `BACKEND_URL = backend_input.rstrip("/") if backend_input
else ""` — strip trailing slashes from the sidebar input. -/
def backendURL (backend_input : String) : String :=
  if backend_input = "" then ""
  else ((backend_input.toList.reverse.dropWhile (fun c => c = '/')).reverse).asString

/-- Line 110: `PREDICT_ENDPOINT = f"..." if BACKEND_URL else None`. -/
def PREDICT_ENDPOINT (backend_input : String) : Option String :=
  if backendURL backend_input = "" then none
  else some (backendURL backend_input ++ "/predict")

/-- What the external world does when `requests.post` is called: either
a response comes back, or the call raises (connection refused, DNS
failure, timeout, ...) with a cause description. -/
inductive NetOutcome where
  | resp (status : Nat) (bodyJson : Option Json) (bodyText : String) : NetOutcome
  | exn (msg : String) : NetOutcome

/-- The parsed prediction stored by the success branch (lines 336-338,
348): the dict values of `predicted`, `low`, `high`.  `low` and `high`
stay `Json` because line 337 can store the raw response value. -/
structure PredictionResult where
  predicted : ℚ
  low : Json
  high : Json

/-- How one press of the Predict button can end.  `crash` records an
exception that escapes the handler (nothing catches exceptions raised
after line 296). -/
inductive SubmitResult where
  | success (result : PredictionResult) : SubmitResult
  | configError (msg : String) : SubmitResult
  | networkError (msg : String) : SubmitResult
  | remoteError (status : Nat) (body : Json ⊕ String) : SubmitResult
  | crash (msg : String) : SubmitResult

/-- Line 336, the argument of `float(...)`:
`j.get("predicted_salary_usd", j.get("predicted_salary", 0.0))`. -/
def rawPredicted (j : Json) : Json :=
  (j.get "predicted_salary_usd").getD ((j.get "predicted_salary").getD (.num 0))

/-- Lines 334-357, the handler once `requests.post` has returned `r`.
On 200 it runs `j = r.json()` (raises when the body is not valid JSON),
`float(j.get(...))` (raises on a non-dict `j` or a non-numeric value),
then resolves `low`/`high` through Python `or` against the derived
±15 % band.  On any other status it reports the status together with
the body, decoded as JSON when possible and as raw text otherwise. -/
def handleResponse (status : Nat) (bodyJson : Option Json) (bodyText : String) : SubmitResult :=
  if status = 200 then
    match bodyJson with
    | none => .crash "JSONDecodeError: 200 body is not valid JSON"
    | some j =>
      match j with
      | .obj fields =>
        match pyFloat (rawPredicted (.obj fields)) with
        | none => .crash "TypeError: float of a non-numeric predicted value"
        | some predicted =>
            .success
              { predicted := predicted
                low := pyOr ((Json.obj fields).get "low") (.num (predicted * (0.85 : ℚ)))
                high := pyOr ((Json.obj fields).get "high") (.num (predicted * (1.15 : ℚ))) }
      | _ => .crash "AttributeError: 200 body is valid JSON but not an object"
  else
    match bodyJson with
    | some j => .remoteError status (Sum.inl j)
    | none => .remoteError status (Sum.inr bodyText)

/-- Lines 286-357: one submission.  When `PREDICT_ENDPOINT` is `None`
the RuntimeError of line 287 is raised before any network call and
caught at line 294, so the result is a configuration error and the
network-call count is 0.  Otherwise `requests.post` runs exactly once:
if it raises, the except branch turns it into the r-is-None error path;
if it returns, the response handler classifies the outcome.  Returns
the outcome together with the number of network calls issued. -/
def submit (backend_input : String) (net : NetOutcome) : SubmitResult × Nat :=
  match PREDICT_ENDPOINT backend_input with
  | none =>
      (.configError "Backend URL not configured. Paste backend root URL in sidebar", 0)
  | some _ =>
      match net with
      | .exn msg => (.networkError msg, 1)
      | .resp status bodyJson bodyText => (handleResponse status bodyJson bodyText, 1)

/-- The form values feeding one submission (lines 225-237): three
numeric fields and nine string fields. -/
structure CandidateProfile where
  age : ℚ
  gender : String
  education : String
  marital_status : String
  experience_level : String
  employment_type : String
  job_title : String
  hours_per_week : ℚ
  employee_residence : String
  company_location : String
  remote_ratio : ℚ
  company_size : String

/-- Lines 249-262: the request payload, a JSON object with the twelve
fixed keys in source order; `age`, `hours_per_week` and `remote_ratio`
go through `float(...)` and the rest are sent as strings. -/
def buildPayload (p : CandidateProfile) : List (String × Json) :=
  [ ("age", .num p.age),
    ("gender", .str p.gender),
    ("education", .str p.education),
    ("marital_status", .str p.marital_status),
    ("experience_level", .str p.experience_level),
    ("employment_type", .str p.employment_type),
    ("job_title", .str p.job_title),
    ("hours_per_week", .num p.hours_per_week),
    ("employee_residence", .str p.employee_residence),
    ("company_location", .str p.company_location),
    ("remote_ratio", .num p.remote_ratio),
    ("company_size", .str p.company_size) ]

/-- One history record, the dict inserted at line 341: timestamp (kept
abstract), the payload sent, and the parsed prediction. -/
structure HistoryEntry where
  ts : Nat
  payload : List (String × Json)
  predicted : ℚ
  low : Json
  high : Json

/-- The session state the submit flow touches (lines 187-192):
`st.session_state.history`, `.last_result`, `.last_payload`. -/
structure SessionState where
  history : List HistoryEntry
  last_result : Option PredictionResult
  last_payload : Option (List (String × Json))

def SubmitResult.isSuccess : SubmitResult → Bool
  | .success _ => true
  | _ => false

def SubmitResult.isCrash : SubmitResult → Bool
  | .crash _ => true
  | _ => false

def Json.isObj : Json → Bool
  | .obj _ => true
  | _ => false

/-- Lines 286-362: one full press of the Predict button, including the
state writes.  On success the handler inserts one entry at index 0 of
the history and records the last result and payload (lines 341-349);
on the r-is-None path and on a non-200 status it sets
`last_result = None` and leaves the history alone (lines 332, 357); a
crash escapes before any state write, so the state is unchanged. -/
def submitStep (backend_input : String) (p : CandidateProfile) (ts : Nat)
    (net : NetOutcome) (s : SessionState) : SubmitResult × SessionState :=
  match submit backend_input net with
  | (.success result, _) =>
      (.success result,
       { history := { ts := ts, payload := buildPayload p,
                      predicted := result.predicted, low := result.low,
                      high := result.high } :: s.history,
         last_result := some result,
         last_payload := some (buildPayload p) })
  | (.crash msg, _) => (.crash msg, s)
  | (other, _) => (other, { s with last_result := none })

/-- The history entry a submission produces when it succeeds (the dict
of line 341).  The fallback value is irrelevant: it is only ever read
under a hypothesis that the submission succeeded. -/
def stepEntry (backend_input : String) (x : CandidateProfile × Nat × NetOutcome) : HistoryEntry :=
  match (submit backend_input x.2.2).1 with
  | .success result =>
      { ts := x.2.1, payload := buildPayload x.1,
        predicted := result.predicted, low := result.low, high := result.high }
  | _ => { ts := x.2.1, payload := buildPayload x.1, predicted := 0, low := .null, high := .null }

/-- A sequence of Predict presses, threaded through the session state
in order. -/
def runSubmissions (backend_input : String)
    (subs : List (CandidateProfile × Nat × NetOutcome)) (s : SessionState) : SessionState :=
  subs.foldl (fun st x => (submitStep backend_input x.1 x.2.1 x.2.2 st).2) s

/-- C2: for every HTTP 200 response whose JSON-object body resolves a
numeric predicted value and has neither a low nor a high field, submit
succeeds with the derived band: low = predicted times 0.85 and
high = predicted times 1.15, exactly. -/
theorem C2_derived_band (b : String) (fields : List (String × Json)) (bodyText : String) (p : ℚ)
    (hb : backendURL b ≠ "")
    (hp : pyFloat (rawPredicted (.obj fields)) = some p)
    (hlow : (Json.obj fields).get "low" = none)
    (hhigh : (Json.obj fields).get "high" = none) :
    submit b (.resp 200 (some (.obj fields)) bodyText) =
      (.success { predicted := p, low := .num (p * (0.85 : ℚ)), high := .num (p * (1.15 : ℚ)) }, 1) := by
  simp [submit, PREDICT_ENDPOINT, hb, handleResponse, hp, pyOr, hlow, hhigh]

/-- C2 witness: the concrete example of the claim, body
predicted_salary_usd = 95000 gives predicted 95000, low 80750,
high 109250. -/
theorem C2_derived_band_witness :
    submit "http://x" (.resp 200 (some (.obj [("predicted_salary_usd", .num 95000)])) "") =
      (.success { predicted := 95000, low := .num 80750, high := .num 109250 }, 1) := by
  have h := C2_derived_band "http://x" [("predicted_salary_usd", .num 95000)] "" 95000
    (by decide) rfl rfl rfl
  rw [h]
  norm_num

/-- C3 counterexample: the claim fails when an explicit bound is 0.  A
200 body that supplies the explicit field low = 0 does not get that
explicit value back: the result carries the derived 51000, not the
supplied 0. -/
theorem C3_counterexample :
    (submit "http://x" (.resp 200
        (some (.obj [("predicted_salary_usd", .num 60000), ("low", .num 0), ("high", .num 70000)])) "")).1 =
      .success { predicted := 60000, low := .num 51000, high := .num 70000 } ∧
    Json.num 51000 ≠ Json.num 0 := by
  constructor
  · have h0 : (submit "http://x" (.resp 200
        (some (.obj [("predicted_salary_usd", .num 60000), ("low", .num 0), ("high", .num 70000)])) "")).1 =
        handleResponse 200
          (some (.obj [("predicted_salary_usd", .num 60000), ("low", .num 0), ("high", .num 70000)])) "" := rfl
    rw [h0]
    simp +decide [handleResponse, rawPredicted, Json.get, lookupField, pyFloat, pyOr, pyTruthy]
    norm_num
  · intro h
    exact absurd (Json.num.inj h) (by norm_num)

/-- C3 amended: explicit low and high values take precedence over the
derived band exactly when they are truthy in the Python sense; a truthy
explicit pair is returned unchanged. -/
theorem C3_truthy_precedence (b : String) (fields : List (String × Json)) (bodyText : String)
    (p : ℚ) (lv hv : Json)
    (hb : backendURL b ≠ "")
    (hp : pyFloat (rawPredicted (.obj fields)) = some p)
    (hlv : (Json.obj fields).get "low" = some lv) (hlt : pyTruthy lv = true)
    (hhv : (Json.obj fields).get "high" = some hv) (hht : pyTruthy hv = true) :
    submit b (.resp 200 (some (.obj fields)) bodyText) =
      (.success { predicted := p, low := lv, high := hv }, 1) := by
  simp [submit, PREDICT_ENDPOINT, hb, handleResponse, hp, pyOr, hlv, hhv, hlt, hht]

/-- C3 witness: the concrete example of the claim, explicit 55000 and
70000 alongside predicted 60000 are returned unchanged. -/
theorem C3_truthy_precedence_witness :
    pyTruthy (.num 55000) = true ∧
    submit "http://x" (.resp 200
        (some (.obj [("predicted_salary_usd", .num 60000), ("low", .num 55000), ("high", .num 70000)])) "") =
      (.success { predicted := 60000, low := .num 55000, high := .num 70000 }, 1) :=
  ⟨by decide,
   C3_truthy_precedence "http://x"
     [("predicted_salary_usd", .num 60000), ("low", .num 55000), ("high", .num 70000)] "" 60000
     (.num 55000) (.num 70000) (by decide) rfl rfl (by decide) rfl (by decide)⟩

/-- The body used to refute the alias clause of C4: explicit bounds
supplied only under the alias names low_usd and high_usd. -/
def aliasFields : List (String × Json) :=
  [("predicted_salary_usd", .num 100), ("low_usd", .num 50), ("high_usd", .num 150)]

/-- C4 counterexample: the alias fields low_usd and high_usd are never
consulted.  A 200 body carrying bounds only under the alias names gets
the derived band 85 and 115, not the supplied 50 and 150. -/
theorem C4_counterexample :
    (submit "http://x" (.resp 200 (some (.obj aliasFields)) "")).1 =
      .success { predicted := 100, low := .num 85, high := .num 115 } ∧
    Json.num 85 ≠ Json.num 50 ∧ Json.num 115 ≠ Json.num 150 := by
  refine ⟨?_, ?_, ?_⟩
  · have h0 : (submit "http://x" (.resp 200 (some (.obj aliasFields)) "")).1 =
        handleResponse 200 (some (.obj aliasFields)) "" := rfl
    rw [h0]
    simp +decide [aliasFields, handleResponse, rawPredicted, Json.get, lookupField,
      pyFloat, pyOr, pyTruthy]
    norm_num
  · intro h
    exact absurd (Json.num.inj h) (by norm_num)
  · intro h
    exact absurd (Json.num.inj h) (by norm_num)

/-- C4 amended: the predicted value is resolved in the order
predicted_salary_usd, then predicted_salary, then 0; the bounds are
read only from the fields low and high (the last conjunct holds for
any field list, in particular one carrying low_usd or high_usd, which
are never consulted), falling back to the derived band. -/
theorem C4_field_resolution (fields : List (String × Json)) :
    (∀ v, (Json.obj fields).get "predicted_salary_usd" = some v →
      rawPredicted (.obj fields) = v) ∧
    ((Json.obj fields).get "predicted_salary_usd" = none →
      ∀ w, (Json.obj fields).get "predicted_salary" = some w →
        rawPredicted (.obj fields) = w) ∧
    ((Json.obj fields).get "predicted_salary_usd" = none →
      (Json.obj fields).get "predicted_salary" = none →
        rawPredicted (.obj fields) = .num 0) ∧
    (∀ bodyText p, pyFloat (rawPredicted (.obj fields)) = some p →
      (Json.obj fields).get "low" = none → (Json.obj fields).get "high" = none →
      handleResponse 200 (some (.obj fields)) bodyText =
        .success { predicted := p, low := .num (p * (0.85 : ℚ)), high := .num (p * (1.15 : ℚ)) }) := by
  refine ⟨?_, ?_, ?_, ?_⟩
  · intro v hv
    simp [rawPredicted, hv]
  · intro h1 w hw
    simp [rawPredicted, h1, hw]
  · intro h1 h2
    simp [rawPredicted, h1, h2]
  · intro bodyText p hp hlow hhigh
    simp [handleResponse, hp, pyOr, hlow, hhigh]

/-- C4 witness: on the alias-carrying body the predicted value resolves
to 100 and the derived band is used despite the supplied low_usd and
high_usd. -/
theorem C4_field_resolution_witness :
    pyFloat (rawPredicted (.obj aliasFields)) = some 100 ∧
    handleResponse 200 (some (.obj aliasFields)) "" =
      .success { predicted := 100, low := .num ((100 : ℚ) * (0.85 : ℚ)),
                 high := .num ((100 : ℚ) * (1.15 : ℚ)) } :=
  ⟨rfl, (C4_field_resolution aliasFields).2.2.2 "" 100 rfl rfl rfl⟩

/-- C5: when the configured base URL strips to the empty string, submit
reports a configuration error and issues zero network calls. -/
theorem C5_unconfigured_no_network (b : String) (net : NetOutcome)
    (hb : backendURL b = "") :
    submit b net = (.configError "Backend URL not configured. Paste backend root URL in sidebar", 0) := by
  simp [submit, PREDICT_ENDPOINT, hb]

/-- C5 witness: with an empty sidebar URL the submission ends in a
configuration error with a network-call count of zero, whatever the
network would have answered. -/
theorem C5_unconfigured_no_network_witness :
    backendURL "" = "" ∧
    submit "" (.resp 200 (some (.obj [("predicted_salary_usd", .num 95000)])) "") =
      (.configError "Backend URL not configured. Paste backend root URL in sidebar", 0) :=
  ⟨rfl, C5_unconfigured_no_network "" _ rfl⟩

/-- C6: every response with a non-200 status yields a remote error
carrying that status and the body, decoded as JSON when the body is
valid JSON and kept as raw text otherwise. -/
theorem C6_remote_error (b : String) (status : Nat) (bodyJson : Option Json) (bodyText : String)
    (hb : backendURL b ≠ "") (hs : status ≠ 200) :
    (∀ j, bodyJson = some j →
      submit b (.resp status bodyJson bodyText) = (.remoteError status (Sum.inl j), 1)) ∧
    (bodyJson = none →
      submit b (.resp status bodyJson bodyText) = (.remoteError status (Sum.inr bodyText), 1)) := by
  constructor
  · intro j hj
    simp [submit, PREDICT_ENDPOINT, hb, handleResponse, hs, hj]
  · intro hj
    simp [submit, PREDICT_ENDPOINT, hb, handleResponse, hs, hj]

/-- C6 witness: the concrete example of the claim, HTTP 500 with the
JSON body detail = model error yields that status and structured body. -/
theorem C6_remote_error_witness :
    submit "http://x" (.resp 500 (some (.obj [("detail", .str "model error")])) "raw") =
      (.remoteError 500 (Sum.inl (.obj [("detail", .str "model error")])), 1) :=
  (C6_remote_error "http://x" 500 (some (.obj [("detail", .str "model error")])) "raw"
    (by decide) (by decide)).1 _ rfl

/-- C8: a 200 body carrying an explicit low (or high) equal to 0 does
not return that explicit 0: the truthiness test of the or-operator
replaces it with the derived bound. -/
theorem C8_zero_bound_uses_derived (b : String) (fields : List (String × Json))
    (bodyText : String) (p : ℚ)
    (hb : backendURL b ≠ "")
    (hp : pyFloat (rawPredicted (.obj fields)) = some p) :
    ((Json.obj fields).get "low" = some (.num 0) →
      (submit b (.resp 200 (some (.obj fields)) bodyText)).1 =
        .success { predicted := p, low := .num (p * (0.85 : ℚ)),
                   high := pyOr ((Json.obj fields).get "high") (.num (p * (1.15 : ℚ))) }) ∧
    ((Json.obj fields).get "high" = some (.num 0) →
      (submit b (.resp 200 (some (.obj fields)) bodyText)).1 =
        .success { predicted := p,
                   low := pyOr ((Json.obj fields).get "low") (.num (p * (0.85 : ℚ))),
                   high := .num (p * (1.15 : ℚ)) }) := by
  have h0 : (submit b (.resp 200 (some (.obj fields)) bodyText)).1 =
      handleResponse 200 (some (.obj fields)) bodyText := by
    simp [submit, PREDICT_ENDPOINT, hb]
  constructor
  · intro hlow
    rw [h0]
    simp [handleResponse, hp, pyOr, hlow, pyTruthy]
  · intro hhigh
    rw [h0]
    simp [handleResponse, hp, pyOr, hhigh, pyTruthy]

/-- C8 witness: a body with explicit low = 0 and predicted 60000 comes
back with the derived low and the explicit high 70000. -/
theorem C8_zero_bound_uses_derived_witness :
    (Json.obj [("predicted_salary_usd", .num 60000), ("low", .num 0), ("high", .num 70000)]).get "low" =
      some (.num 0) ∧
    (submit "http://x" (.resp 200
        (some (.obj [("predicted_salary_usd", .num 60000), ("low", .num 0), ("high", .num 70000)])) "")).1 =
      .success { predicted := 60000, low := .num ((60000 : ℚ) * (0.85 : ℚ)),
                 high := pyOr ((Json.obj [("predicted_salary_usd", .num 60000), ("low", .num 0),
                   ("high", .num 70000)]).get "high") (.num ((60000 : ℚ) * (1.15 : ℚ))) } :=
  ⟨rfl, (C8_zero_bound_uses_derived "http://x"
      [("predicted_salary_usd", .num 60000), ("low", .num 0), ("high", .num 70000)] "" 60000
      (by decide) rfl).1 rfl⟩

/-- C1 counterexample: an HTTP 200 answer whose body is not valid JSON
makes the submission end in an unhandled exception (the r.json call of
line 335 is outside every try block), not in a result or a classified
error. -/
theorem C1_counterexample :
    (submit "http://x" (.resp 200 none "<html>Service restarting</html>")).1 =
      .crash "JSONDecodeError: 200 body is not valid JSON" ∧
    ((submit "http://x" (.resp 200 none "<html>Service restarting</html>")).1).isCrash = true :=
  ⟨rfl, rfl⟩

/-- Exactly which responses make the 200 handler raise: status 200 with
a body that is not valid JSON, is valid JSON but not an object, or is
an object whose resolved predicted value float() rejects. -/
theorem handleResponse_isCrash_iff (status : Nat) (bodyJson : Option Json) (bodyText : String) :
    ((handleResponse status bodyJson bodyText).isCrash = true) ↔
      (status = 200 ∧ (bodyJson = none ∨
        ∃ j, bodyJson = some j ∧ (j.isObj = false ∨ pyFloat (rawPredicted j) = none))) := by
  unfold handleResponse
  by_cases hs : status = 200
  · subst hs
    simp only [if_pos rfl]
    cases bodyJson with
    | none => simp [SubmitResult.isCrash]
    | some j =>
      cases j with
      | obj fields =>
          cases hpf : pyFloat (rawPredicted (.obj fields)) with
          | none => simp [hpf, SubmitResult.isCrash, Json.isObj]
          | some q => simp [hpf, SubmitResult.isCrash, Json.isObj]
      | null => simp [SubmitResult.isCrash, Json.isObj]
      | bool c => simp [SubmitResult.isCrash, Json.isObj]
      | num q => simp [SubmitResult.isCrash, Json.isObj]
      | str s2 => simp [SubmitResult.isCrash, Json.isObj]
      | arr items => simp [SubmitResult.isCrash, Json.isObj]
  · simp only [if_neg hs]
    cases bodyJson <;> simp [SubmitResult.isCrash, hs]

/-- C1 amended: a submission ends in an unhandled exception exactly
when the endpoint is configured and the service answers HTTP 200 with
a body that is not valid JSON, not a JSON object, or an object whose
predicted field is not numeric; every other submission — unconfigured
endpoint, transport failure, non-200 status, well-formed 200 body —
ends in a result or a classified error. -/
theorem C1_crash_characterization (b : String) (net : NetOutcome) :
    ((submit b net).1).isCrash = true ↔
      (backendURL b ≠ "" ∧ ∃ status bodyJson bodyText,
        net = .resp status bodyJson bodyText ∧ status = 200 ∧
        (bodyJson = none ∨ ∃ j, bodyJson = some j ∧
          (j.isObj = false ∨ pyFloat (rawPredicted j) = none))) := by
  unfold submit PREDICT_ENDPOINT
  by_cases hb : backendURL b = ""
  · simp [hb, SubmitResult.isCrash]
  · cases net with
    | exn msg => simp [hb, SubmitResult.isCrash]
    | resp status bodyJson bodyText =>
        rw [if_neg hb]
        show (handleResponse status bodyJson bodyText).isCrash = true ↔ _
        rw [handleResponse_isCrash_iff]
        constructor
        · rintro ⟨h1, h2⟩
          exact ⟨hb, status, bodyJson, bodyText, rfl, h1, h2⟩
        · rintro ⟨-, s1, bj1, bt1, heq, h1, h2⟩
          obtain ⟨rfl, rfl, rfl⟩ := NetOutcome.resp.inj heq
          exact ⟨h1, h2⟩

/-- C1 amended witness: the characterization applied at a concrete
malformed 200 response. -/
theorem C1_crash_characterization_witness :
    ((submit "http://x" (.resp 200 none "oops")).1).isCrash = true :=
  (C1_crash_characterization "http://x" (.resp 200 none "oops")).mpr
    ⟨by decide, 200, none, "oops", rfl, rfl, Or.inl rfl⟩

/-- C9: the payload is a JSON object with exactly the twelve fixed keys
in order, no duplicates, where age, hours_per_week and remote_ratio are
serialized as numbers and the other nine fields as strings. -/
theorem C9_payload_exact_keys (p : CandidateProfile) :
    (buildPayload p).map Prod.fst =
      ["age", "gender", "education", "marital_status", "experience_level", "employment_type",
       "job_title", "hours_per_week", "employee_residence", "company_location", "remote_ratio",
       "company_size"] ∧
    ((buildPayload p).map Prod.fst).Nodup ∧
    (buildPayload p).map Prod.snd =
      [.num p.age, .str p.gender, .str p.education, .str p.marital_status, .str p.experience_level,
       .str p.employment_type, .str p.job_title, .num p.hours_per_week, .str p.employee_residence,
       .str p.company_location, .num p.remote_ratio, .str p.company_size] := by
  refine ⟨rfl, ?_, rfl⟩
  have h : (buildPayload p).map Prod.fst =
      ["age", "gender", "education", "marital_status", "experience_level", "employment_type",
       "job_title", "hours_per_week", "employee_residence", "company_location", "remote_ratio",
       "company_size"] := rfl
  rw [h]
  decide

/-- A success step prepends exactly its own entry to the history. -/
theorem submitStep_history_of_success (b : String) (p : CandidateProfile) (ts : Nat)
    (net : NetOutcome) (s : SessionState)
    (h : ((submit b net).1).isSuccess = true) :
    (submitStep b p ts net s).2.history = stepEntry b (p, ts, net) :: s.history := by
  unfold submitStep stepEntry
  rcases hsub : submit b net with ⟨res, n⟩
  rw [hsub] at h
  cases res <;> simp_all [SubmitResult.isSuccess]

/-- Running a list of all-successful submissions prepends their entries
in reverse submission order, leaving the prior history as a suffix. -/
theorem runSubmissions_history_of_successes (b : String)
    (subs : List (CandidateProfile × Nat × NetOutcome)) :
    ∀ s : SessionState, (∀ x ∈ subs, ((submit b x.2.2).1).isSuccess = true) →
      (runSubmissions b subs s).history = (subs.map (stepEntry b)).reverse ++ s.history := by
  induction subs with
  | nil =>
      intro s _
      simp [runSubmissions]
  | cons x rest ih =>
      intro s h
      have hx : ((submit b x.2.2).1).isSuccess = true := h x (List.mem_cons_self _ _)
      have hrest : ∀ y ∈ rest, ((submit b y.2.2).1).isSuccess = true :=
        fun y hy => h y (List.mem_cons_of_mem _ hy)
      have hstep : runSubmissions b (x :: rest) s
          = runSubmissions b rest (submitStep b x.1 x.2.1 x.2.2 s).2 := rfl
      rw [hstep, ih _ hrest, submitStep_history_of_success b x.1 x.2.1 x.2.2 s hx]
      simp

/-- C7: after any run of N successful submissions the history is the N
new entries, newest first, in front of the untouched prior history; in
particular its first element is the entry of the most recently
completed submission. -/
theorem C7_history_newest_first (b : String)
    (subs : List (CandidateProfile × Nat × NetOutcome)) (s : SessionState)
    (h : ∀ x ∈ subs, ((submit b x.2.2).1).isSuccess = true) :
    (runSubmissions b subs s).history = (subs.map (stepEntry b)).reverse ++ s.history ∧
    (∀ x, subs.getLast? = some x →
      (runSubmissions b subs s).history.head? = some (stepEntry b x)) := by
  refine ⟨runSubmissions_history_of_successes b subs s h, ?_⟩
  intro x hx
  rw [runSubmissions_history_of_successes b subs s h]
  obtain ⟨l2, rfl⟩ := (List.getLast?_eq_some_iff).1 hx
  simp

/-- The form defaults of lines 225-237, used as a sample profile. -/
def sampleProfile : CandidateProfile :=
  { age := 25, gender := "Male", education := "Masters", marital_status := "Never Married",
    experience_level := "junior", employment_type := "FT", job_title := "Software Engineer",
    hours_per_week := 40, employee_residence := "India", company_location := "India",
    remote_ratio := 0, company_size := "M" }

/-- A well-formed 200 answer whose body carries only a predicted value. -/
def okNet (q : ℚ) : NetOutcome :=
  .resp 200 (some (.obj [("predicted_salary_usd", .num q)])) ""

def threeSubs : List (CandidateProfile × Nat × NetOutcome) :=
  [(sampleProfile, 1, okNet 1000), (sampleProfile, 2, okNet 2000), (sampleProfile, 3, okNet 3000)]

def emptySession : SessionState :=
  { history := [], last_result := none, last_payload := none }

/-- C7 witness: three concrete successful submissions; the head of the
resulting history is the entry of the third, most recent one. -/
theorem C7_history_newest_first_witness :
    (∀ x ∈ threeSubs, ((submit "http://x" x.2.2).1).isSuccess = true) ∧
    (runSubmissions "http://x" threeSubs emptySession).history.head? =
      some (stepEntry "http://x" (sampleProfile, 3, okNet 3000)) :=
  ⟨by decide,
   (C7_history_newest_first "http://x" threeSubs emptySession (by decide)).2
     (sampleProfile, 3, okNet 3000) rfl⟩

/-- C10: a submission that does not succeed — configuration error,
transport failure, non-200 status, or a crash — leaves the history
exactly as it was. -/
theorem C10_failure_leaves_history (b : String) (p : CandidateProfile) (ts : Nat)
    (net : NetOutcome) (s : SessionState)
    (h : ((submit b net).1).isSuccess = false) :
    (submitStep b p ts net s).2.history = s.history := by
  unfold submitStep
  rcases hsub : submit b net with ⟨res, n⟩
  rw [hsub] at h
  cases res <;> simp_all [SubmitResult.isSuccess]

/-- One-entry session used to exhibit an untouched history. -/
def oneEntrySession : SessionState :=
  { history := [{ ts := 0, payload := buildPayload sampleProfile, predicted := 100,
                  low := .num 85, high := .num 115 }],
    last_result := none, last_payload := none }

/-- C10 witness: a submission against an unconfigured endpoint fails
and keeps the existing one-entry history unchanged. -/
theorem C10_failure_leaves_history_witness :
    ((submit "" (okNet 1000)).1).isSuccess = false ∧
    (submitStep "" sampleProfile 9 (okNet 1000) oneEntrySession).2.history =
      oneEntrySession.history :=
  ⟨rfl, C10_failure_leaves_history "" sampleProfile 9 (okNet 1000) oneEntrySession rfl⟩

end FrontendApp
